import Mathlib

/-!
Formal model of the `tecancavro` Tecan Cavro XL3000 syringe-pump driver
(`syringe.py` and `XL3000.py`): the command-chaining engine, the speculative
simulation state, the status-byte decoder, the plunger-move timing model,
the ready-polling wait loop and the error-recovery policy.

Conventions of the shallow embedding:
* Python floats are modelled as rationals (`ℚ`); the float literals appearing
  in the source (`0.02`, `0.1`, `0.3`, `delay_ms/1000.0`, ...) are exactly
  representable choices of the source, so `ℚ` arithmetic coincides with the
  intended real arithmetic of the code.
* `math.sqrt` is passed in as an explicit function parameter `sqrtQ : ℚ → ℚ`;
  theorems about concrete runs instantiate it at perfect squares, where the
  float square root is exact.
* Python exceptions are explicit result values (`PyResult` / `Except PyErr`),
  carrying the object state at raise time, since attribute mutations made
  before a `raise` survive the exception.
* The serial transport (`com_link.sendRcv`) is an oracle: a list of device
  responses, each a status-byte bit string plus a data payload.  `time.time()`
  is an oracle `times : ℕ → ℚ` indexed by the number of clock reads so far.
* Recursive request/response flows (`_syringeErrorHandler` can resend through
  `sendRcv`, which re-enters the handler) are given a `fuel` parameter;
  running out of fuel (or of oracle responses) yields `none`, which is
  distinct from every Python-level outcome.
-/

namespace Tecancavro

/-- Python exception kinds that the modelled code paths can raise.
`syringeError c` is `SyringeError` with device error code `c`
(`ProtocolError(code)` in the specification's vocabulary);
`syringeTimeout` is the `SyringeTimeout` wait-loop exception
(the specification's `TimeoutError`). -/
inductive PyErr where
  | valueError
  | attributeError
  | keyError
  | typeError
  | unboundLocalError
  | indexError
  | syringeError (code : ℕ)
  | syringeTimeout
deriving DecidableEq, Repr

/-- The per-instance state dictionary of `XL3000` (used both for the
confirmed `self.state` and the speculative `self.sim_state`).  Fields that
Python initialises to `None` are `Option`-valued. -/
structure SimState where
  plunger_pos : Option ℤ
  port : Option ℤ
  microstep : Bool
  start_speed : Option ℚ
  top_speed : Option ℚ
  cutoff_speed : Option ℚ
  slope : ℤ
deriving DecidableEq, Repr

/-- The mutable attributes of a `Syringe`/`XL3000` instance that the modelled
code paths read or write. -/
structure Pump where
  num_ports : ℤ
  syringe_ul : ℤ
  init_port : ℤ
  init_force : ℤ
  state : SimState
  sim_state : SimState
  sim_speed_change : Bool
  cmd_chain : String
  exec_time : ℚ
  ready : Bool
  prev_error_code : ℕ
  repeat_error : Bool
  last_cmd : String
deriving DecidableEq, Repr

/-- Outcome of a Python method on the pump object: either a normal return or
a raised exception; both carry the object state afterwards (mutations made
before a raise persist). -/
inductive PyResult where
  | ok (p : Pump)
  | exn (e : PyErr) (p : Pump)
deriving DecidableEq, Repr

/-- Sequencing of chain-building calls (a raised exception aborts the rest). -/
def PyResult.bind (r : PyResult) (f : Pump → PyResult) : PyResult :=
  match r with
  | .ok p => f p
  | .exn e p => .exn e p

/-- The `SPEED_CODES` dict literal of `XL3000`, transcribed pair by pair in
source order.  Note that the source literal contains the key `17` twice
(`17: 200` and, where `27: 100` was evidently intended, `17: 100`) and
contains no key `27`. -/
def SPEED_CODES_list : List (ℤ × ℚ) :=
  [(0, 6000), (1, 5600), (2, 5000), (3, 4400), (4, 3800), (5, 3200),
   (6, 2600), (7, 2200), (8, 2000), (9, 1800), (10, 1600), (11, 1400),
   (12, 1200), (13, 1000), (14, 800), (15, 600), (16, 400), (17, 200),
   (18, 190), (19, 180), (20, 170), (21, 160), (22, 150), (23, 140),
   (24, 130), (25, 120), (26, 110), (17, 100), (28, 90), (29, 80),
   (30, 70), (31, 60), (32, 50), (33, 40), (34, 30), (35, 20), (36, 18),
   (37, 16), (38, 14), (39, 12), (40, 10)]

/-- Lookup in the `SPEED_CODES` dict.  A Python dict literal binds duplicate
keys to the *last* value given, so lookup searches the transcription from the
right; a missing key is `none` (a `KeyError` at the use site). -/
def SPEED_CODES (k : ℤ) : Option ℚ :=
  (SPEED_CODES_list.reverse.find? (fun kv => kv.1 == k)).map (·.2)

/-- `XL3000._calcInitForce`. -/
def calcInitForce (syringe_ul : ℤ) : ℤ :=
  if syringe_ul ≤ 100 then 2
  else if syringe_ul ≤ 500 then 1
  else 0

/-- Value of one character of the status bit string (`int(c)` for `'0'`/`'1'`). -/
def int_of_bit (b : Bool) : ℕ := if b then 1 else 0

/-- `int(s, 2)`: most-significant-bit-first binary value of a bit string. -/
def bitsToNat (bs : List Bool) : ℕ :=
  bs.foldl (fun a b => 2 * a + int_of_bit b) 0

/-- `Syringe._checkStatus`: parse a status bit string.  Reads the ready flag
from bit position 2 and the error code from bit positions 4–7
(`int(status_byte[4:8], 2)`), records ready/repeat/previous-code attributes,
then raises `SyringeError(code)` for a non-zero code and otherwise returns
`(ready, error_code)`.  A status byte shorter than 8 bits would fault on the
slicing/indexing; that is modelled as `indexError`. -/
def checkStatus (status_byte : List Bool) (p : Pump) :
    Pump × Except PyErr (Bool × ℕ) :=
  if 8 ≤ status_byte.length then
    let error_code := bitsToNat ((status_byte.drop 4).take 4)
    let ready := status_byte.getD 2 false
    let p := { p with ready := ready }
    let p := { p with repeat_error := error_code == p.prev_error_code }
    let p := { p with prev_error_code := error_code }
    if error_code ≠ 0 then (p, .error (.syringeError error_code))
    else (p, .ok (ready, error_code))
  else (p, .error .indexError)

/-- `XL3000._calcPlungerMoveTime`, branch for branch.  `sqrtQ` stands for
`math.sqrt`.  The result is `none` exactly when the Python local `move_t` is
never assigned, in which case `return move_t` raises `UnboundLocalError`.
Mirroring the source, the first regime's assignment (`first`) is kept but can
be superseded by the later `if`/`elif`/`else` chain, whose final branch
assigns only under its inner halfstep test. -/
def calcPlungerMoveTime (sqrtQ : ℚ → ℚ) (move_steps0 : ℚ)
    (start_speed top_speed cutoff_speed : ℚ) (slope0 : ℚ) (microstep : Bool) :
    Option ℚ :=
  let slope := slope0 * 2500
  let move_steps := if microstep then move_steps0 / 8 else move_steps0
  let theo1 := sqrtQ (4 * move_steps * slope + start_speed ^ 2)
  let first : Option ℚ :=
    if theo1 < cutoff_speed then some (theo1 - start_speed / slope) else none
  let theo_top_speed :=
    if theo1 < cutoff_speed then theo1
    else sqrtQ (2 * move_steps * slope + (start_speed ^ 2 + cutoff_speed ^ 2) / 2)
  if cutoff_speed < theo_top_speed ∧ theo_top_speed < top_speed then
    some ((1 / slope) * (2 * theo_top_speed - start_speed - cutoff_speed))
  else if start_speed = top_speed ∧ top_speed = cutoff_speed then
    some (2 * move_steps / top_speed)
  else
    let ramp_up_halfsteps := (top_speed ^ 2 - start_speed ^ 2) / (2 * slope)
    let ramp_down_halfsteps := (top_speed ^ 2 - cutoff_speed ^ 2) / (2 * slope)
    if ramp_up_halfsteps + ramp_down_halfsteps < 2 * top_speed then
      let ramp_up_t := (top_speed - start_speed) / slope
      let ramp_down_t := (top_speed - cutoff_speed) / slope
      let constant_halfsteps :=
        2 * move_steps - ramp_up_halfsteps - ramp_down_halfsteps
      let constant_t := constant_halfsteps / top_speed
      some (ramp_up_t + ramp_down_t + constant_t)
    else first

/-- `XL3000._simIncToPulses`: set the simulated top speed from `SPEED_CODES`
and clamp simulated start/cutoff speeds down to it.  A code absent from the
dict raises `KeyError` before any assignment; a `None` speed raises
`TypeError` at its comparison, after the assignments already made. -/
def simIncToPulses (speed_inc : ℤ) (p : Pump) : PyResult :=
  match SPEED_CODES speed_inc with
  | none => .exn .keyError p
  | some top_speed =>
    let ss0 := { p.sim_state with top_speed := some top_speed }
    match ss0.start_speed with
    | none => .exn .typeError { p with sim_state := ss0 }
    | some v0 =>
      let ss1 :=
        if top_speed < v0 then { ss0 with start_speed := some top_speed } else ss0
      match ss1.cutoff_speed with
      | none => .exn .typeError { p with sim_state := ss1 }
      | some vc =>
        let ss2 :=
          if top_speed < vc then { ss1 with cutoff_speed := some top_speed } else ss1
        .ok { p with sim_state := ss2 }

/-- `XL3000.setSpeed` (the chain-building body, without the `execWrap`
immediate-execution wrapper): validate the speed code, flag the speed change,
update the simulation speeds, then append `S<code>` to the chain. -/
def setSpeed (speed_code : ℤ) (p : Pump) : PyResult :=
  if ¬ (0 ≤ speed_code ∧ speed_code ≤ 40) then .exn .valueError p
  else
    let cmd_string := "S" ++ toString speed_code
    let p := { p with sim_speed_change := true }
    match simIncToPulses speed_code p with
    | .exn e p' => .exn e p'
    | .ok p' => .ok { p' with cmd_chain := p'.cmd_chain ++ cmd_string }

/-- `XL3000.setSlope`: validate the slope code, flag the speed change, append
`L<code>`. -/
def setSlope (slope_code : ℤ) (p : Pump) : PyResult :=
  if ¬ (1 ≤ slope_code ∧ slope_code ≤ 20) then .exn .valueError p
  else
    .ok { p with sim_speed_change := true,
                 cmd_chain := p.cmd_chain ++ ("L" ++ toString slope_code) }

/-- `XL3000.changePort`: validate the destination port, resolve the current
simulated port (falling back to `init_port` when the simulated port is
`None` or `0`, Python truthiness), compute clockwise/counter-clockwise
deltas, pick the direction (shorter way on `clockwise=None`, ties clockwise),
append `I<port>`/`O<port>`, and accumulate `0.02 * delta` plus `0.1` seconds. -/
def changePort (to_port : ℤ) (clockwise : Option Bool) (p : Pump) : PyResult :=
  if ¬ (0 < to_port ∧ to_port ≤ p.num_ports) then .exn .valueError p
  else
    let from_port :=
      match p.sim_state.port with
      | some fp => if fp = 0 then p.init_port else fp
      | none => p.init_port
    let diff := to_port - from_port
    let deltas : ℤ × ℤ :=
      if 0 ≤ diff then (diff, p.num_ports - diff)
      else (p.num_ports + diff, -diff)
    let cw : Bool :=
      match clockwise with
      | some b => b
      | none => decide (deltas.1 ≤ deltas.2)
    let pd : String × ℤ := if cw then ("I", deltas.1) else ("O", deltas.2)
    .ok { p with
          sim_state := { p.sim_state with port := some to_port },
          cmd_chain := p.cmd_chain ++ (pd.1 ++ toString to_port),
          exec_time := p.exec_time + 0.02 * (pd.2 : ℚ) + 0.1 }

/-- Body of `XL3000.movePlungerAbs` after the range validation: compute the
position delta (a `None` simulated position faults at the subtraction),
update the simulated position, append `A<pos>`, then add the computed move
time.  If `_calcPlungerMoveTime` leaves its `move_t` unassigned, the
`UnboundLocalError` surfaces here, after the position/chain mutations. -/
def movePlungerAbsCore (sqrtQ : ℚ → ℚ) (abs_position : ℤ) (p : Pump) : PyResult :=
  match p.sim_state.plunger_pos with
  | none => .exn .typeError p
  | some cur_pos =>
    let delta_pos := cur_pos - abs_position
    let p1 := { p with sim_state := { p.sim_state with plunger_pos := some abs_position } }
    let p2 := { p1 with cmd_chain := p1.cmd_chain ++ ("A" ++ toString abs_position) }
    match p2.sim_state.start_speed, p2.sim_state.top_speed, p2.sim_state.cutoff_speed with
    | some v0, some vt, some vc =>
      match calcPlungerMoveTime sqrtQ (delta_pos.natAbs : ℚ) v0 vt vc
          (p2.sim_state.slope : ℚ) p2.sim_state.microstep with
      | some move_t => .ok { p2 with exec_time := p2.exec_time + move_t }
      | none => .exn .unboundLocalError p2
    | _, _, _ => .exn .typeError p2

/-- `XL3000.movePlungerAbs`: range-validate against the simulated stepping
mode (0–24000 in microstep mode, 0–3000 otherwise).  In the source, building
the `ValueError` message evaluates `self.port_num`, an attribute that does
not exist on the class, so an out-of-range position actually raises
`AttributeError` (before any state mutation). -/
def movePlungerAbs (sqrtQ : ℚ → ℚ) (abs_position : ℤ) (p : Pump) : PyResult :=
  if p.sim_state.microstep then
    if ¬ (0 ≤ abs_position ∧ abs_position ≤ 24000) then .exn .attributeError p
    else movePlungerAbsCore sqrtQ abs_position p
  else
    if ¬ (0 ≤ abs_position ∧ abs_position ≤ 3000) then .exn .attributeError p
    else movePlungerAbsCore sqrtQ abs_position p

/-- `XL3000.repeatCmdSeq`: validate the repeat count, append `G<n>`, and
multiply the whole accumulated `exec_time` by `n`. -/
def repeatCmdSeq (num_repeats : ℤ) (p : Pump) : PyResult :=
  if ¬ (0 < num_repeats ∧ num_repeats < 30000) then .exn .valueError p
  else
    .ok { p with cmd_chain := p.cmd_chain ++ ("G" ++ toString num_repeats),
                 exec_time := p.exec_time * (num_repeats : ℚ) }

/-- `XL3000.markRepeatStart`: append the bare `g` token. -/
def markRepeatStart (p : Pump) : PyResult :=
  .ok { p with cmd_chain := p.cmd_chain ++ "g" }

/-- `XL3000.delayExec`: validate the delay, append `M<ms>`, add `ms/1000`
seconds. -/
def delayExec (delay_ms : ℤ) (p : Pump) : PyResult :=
  if ¬ (0 < delay_ms ∧ delay_ms < 30000) then .exn .valueError p
  else
    .ok { p with cmd_chain := p.cmd_chain ++ ("M" ++ toString delay_ms),
                 exec_time := p.exec_time + (delay_ms : ℚ) / 1000 }

/-- The integer answers returned by the device to the confirmed-state queries
(`updateSpeeds`, `getCurPort`, `getPlungerPos`) that `XL3000.resetChain`
issues after an executed chain with a speed change. -/
structure QueryVals where
  start_speed : ℚ
  top_speed : ℚ
  cutoff_speed : ℚ
  port : ℤ
  plunger_pos : ℤ
deriving DecidableEq, Repr

/-- Placeholder query values for `resetChain(on_execute=False)` calls, on
which no query is issued. -/
def noQueries : QueryVals := ⟨0, 0, 0, 0, 0⟩

/-- `Syringe.resetChain` (state part): clear the pending chain and its
accumulated time.  The optional pre-clear `_waitReady` only consumes time. -/
def syringeResetChain (p : Pump) : Pump :=
  { p with cmd_chain := "", exec_time := 0 }

/-- `XL3000.updateSimState`: copy the confirmed state over the simulation
state. -/
def updateSimState (p : Pump) : Pump :=
  { p with sim_state := p.state }

/-- `XL3000.resetChain`: clear the chain, then — only after an executed chain
that contained a speed-affecting command — reconcile slope/microstep from the
simulation state and refresh speeds, port and plunger position from the
device (`q` holds the device's answers), and finally resynchronise the
simulation state from the confirmed state. -/
def resetChain (on_execute : Bool) (q : QueryVals) (p : Pump) : Pump :=
  let p := syringeResetChain p
  let p :=
    if on_execute && p.sim_speed_change then
      { p with state := { p.state with
          slope := p.sim_state.slope,
          microstep := p.sim_state.microstep,
          start_speed := some q.start_speed,
          top_speed := some q.top_speed,
          cutoff_speed := some q.cutoff_speed,
          port := some q.port,
          plunger_pos := some q.plunger_pos } }
    else p
  updateSimState { p with sim_speed_change := false }

/-- One device response handed back by the transport (`com_link.sendRcv`):
a status-byte bit string plus a data payload. -/
structure Resp where
  status_byte : List Bool
  data : String
deriving DecidableEq, Repr

/-- The world a communicating run lives in: the pump object, the remaining
transport responses, the trace of command strings transmitted so far, and the
number of `time.time()` reads made so far. -/
structure World where
  pump : Pump
  oracle : List Resp
  trace : List String
  tick : ℕ
deriving DecidableEq, Repr

/-- `Syringe._sendRcv`: transmit a command string over the transport and run
`_checkStatus` on the status byte of the response; on a clean status return
`(data, ready)`.  An exhausted oracle is `none` (the transport never
answered; no Python-level outcome). -/
def sendRcvLow (cmd_string : String) (w : World) :
    Option (World × Except PyErr (String × Bool)) :=
  match w.oracle with
  | [] => none
  | r :: rest =>
    let w' := { w with oracle := rest, trace := w.trace ++ [cmd_string] }
    let pr := checkStatus r.status_byte w'.pump
    let w'' := { w' with pump := pr.1 }
    match pr.2 with
    | .error e => some (w'', .error e)
    | .ok (ready, _) => some (w'', .ok (r.data, ready))

/-- `Syringe._checkReady`: report ready immediately if the cached `_ready`
flag is set, otherwise probe with a raw `Q` exchange; a `SyringeError` from
the probe is tolerated (returning the cached flag) when `_checkStatus` marked
it as a repeat of the previous error code, and re-raised otherwise. -/
def checkReady (w : World) : Option (World × Except PyErr Bool) :=
  if w.pump.ready then some (w, .ok true)
  else
    match sendRcvLow "Q" w with
    | none => none
    | some (w', .ok (_, ready)) => some (w', .ok ready)
    | some (w', .error (.syringeError c)) =>
      if w'.pump.repeat_error then some (w', .ok w'.pump.ready)
      else some (w', .error (.syringeError c))
    | some (w', .error e) => some (w', .error e)

/-- The polling loop of `Syringe._waitReady`:
`while (start - time.time()) < (start + timeout): ...` — after the loop,
`SyringeTimeout` is raised.  Each loop-guard evaluation reads the clock
(`times` at the current tick).  `polling_interval` only feeds `sleep`. -/
def waitReadyLoop (times : ℕ → ℚ) (fuel : ℕ) (polling_interval : ℚ)
    (start timeout : ℚ) (w : World) : Option (World × Except PyErr Unit) :=
  match fuel with
  | 0 => none
  | fuel + 1 =>
    let now := times w.tick
    let w' := { w with tick := w.tick + 1 }
    if start - now < start + timeout then
      match checkReady w' with
      | none => none
      | some (w'', .error e) => some (w'', .error e)
      | some (w'', .ok true) => some (w'', .ok ())
      | some (w'', .ok false) =>
        waitReadyLoop times fuel polling_interval start timeout w''
    else some (w', .error .syringeTimeout)

/-- `Syringe._waitReady(polling_interval=0.3, timeout=10, delay=None)`: an
optional initial sleep (time passage is already encoded in `times`), then
`start = time.time()` and the polling loop. -/
def waitReadyPriv (times : ℕ → ℚ) (fuel : ℕ) (polling_interval timeout : ℚ)
    (delay : Option ℚ) (w : World) : Option (World × Except PyErr Unit) :=
  let start := times w.tick
  let w' := { w with tick := w.tick + 1 }
  waitReadyLoop times fuel polling_interval start timeout w'

mutual

/-- `Syringe.sendRcv`: append the execute byte `R` when requested, record the
command as `last_cmd`, transmit via `_sendRcv` inside `_syringeErrorHandler`.
On a direct success the parsed data is returned; when the handler absorbs an
error and recovers, the `with` block is left without reaching the `return`,
so the Python function returns `None` — modelled as `.ok none`. -/
def sendRcv (times : ℕ → ℚ) (fuel : ℕ) (cmd_string : String) (execute : Bool)
    (w : World) : Option (World × Except PyErr (Option String)) :=
  match fuel with
  | 0 => none
  | fuel + 1 =>
    let cmd := if execute then cmd_string ++ "R" else cmd_string
    let w' := { w with pump := { w.pump with last_cmd := cmd } }
    match sendRcvLow cmd w' with
    | none => none
    | some (w'', .ok (data, _)) => some (w'', .ok (some data))
    | some (w'', .error e) => syringeErrorHandler times fuel e w''

/-- `XL3000._syringeErrorHandler`, applied to an exception `e` raised by the
guarded block.  A `SyringeError` with code in {7, 9, 10} saves `last_cmd`,
resets the chain, re-initialises the pump (a recoverable `SyringeError`
during re-init is swallowed, any other exception propagates), waits ready
and resends the saved command.  Any other exception resets the chain and
propagates. -/
def syringeErrorHandler (times : ℕ → ℚ) (fuel : ℕ) (e : PyErr) (w : World) :
    Option (World × Except PyErr (Option String)) :=
  match fuel with
  | 0 => none
  | fuel + 1 =>
    match e with
    | .syringeError c =>
      if c = 7 ∨ c = 9 ∨ c = 10 then
        let last_cmd := w.pump.last_cmd
        let w' := { w with pump := resetChain false noQueries w.pump }
        match init times fuel w' with
        | none => none
        | some (w'', res) =>
          match res with
          | .ok _ => resendAfterReinit times fuel last_cmd w''
          | .error (.syringeError c2) =>
            if c2 = 7 ∨ c2 = 9 ∨ c2 = 10 then resendAfterReinit times fuel last_cmd w''
            else some (w'', .error (.syringeError c2))
          | .error e2 => some (w'', .error e2)
      else
        some ({ w with pump := resetChain false noQueries w.pump },
              .error (.syringeError c))
    | _ =>
      some ({ w with pump := resetChain false noQueries w.pump }, .error e)

/-- Tail of the recovery path of `_syringeErrorHandler`: `self._waitReady()`
(defaults `polling_interval=0.3`, `timeout=10`), then resend the saved last
command through `sendRcv` (whose own result is discarded by the context
manager, so a recovered outer call yields `None`). -/
def resendAfterReinit (times : ℕ → ℚ) (fuel : ℕ) (last_cmd : String) (w : World) :
    Option (World × Except PyErr (Option String)) :=
  match fuel with
  | 0 => none
  | fuel + 1 =>
    match waitReadyPriv times fuel 0.3 10 none w with
    | none => none
    | some (w', .error e) => some (w', .error e)
    | some (w', .ok _) =>
      match sendRcv times fuel last_cmd false w' with
      | none => none
      | some (w'', .ok _) => some (w'', .ok none)
      | some (w'', .error e) => some (w'', .error e)

/-- `XL3000.init` with its instance defaults: choose `Z`/`Y` from
`init_port`, compute the force (`_calcInitForce` when `init_force < 0`),
transmit `<cmd><force>` with the execute byte, then `waitReady()`. -/
def init (times : ℕ → ℚ) (fuel : ℕ) (w : World) :
    Option (World × Except PyErr Unit) :=
  match fuel with
  | 0 => none
  | fuel + 1 =>
    let p := w.pump
    match (if p.init_port = 1 then some "Z"
           else if p.init_port = p.num_ports then some "Y"
           else none) with
    | none => some (w, .error .valueError)
    | some init_cmd =>
      let force : ℤ :=
        if p.init_force < 0 then calcInitForce p.syringe_ul else p.init_force
      match sendRcv times fuel (init_cmd ++ toString force) true w with
      | none => none
      | some (w', .error e) => some (w', .error e)
      | some (w', .ok _) =>
        match waitReadyPub times fuel w' with
        | none => none
        | some (w'', .error e) => some (w'', .error e)
        | some (w'', .ok _) => some (w'', .ok ())

/-- `XL3000.waitReady` with its defaults (`timeout=10`,
`polling_interval=0.3`, `delay=None`): `_waitReady` wrapped in
`_syringeErrorHandler`. -/
def waitReadyPub (times : ℕ → ℚ) (fuel : ℕ) (w : World) :
    Option (World × Except PyErr (Option String)) :=
  match fuel with
  | 0 => none
  | fuel + 1 =>
    match waitReadyPriv times fuel 0.3 10 none w with
    | none => none
    | some (w', .ok _) => some (w', .ok none)
    | some (w', .error e) => syringeErrorHandler times fuel e w'

end

/-! Concrete pumps, responses and runs used by the theorems below. -/

/-- A populated state dictionary, as it stands after the constructor's
initial queries: position 0, port 1, microstep mode, start/cutoff speed 900,
top speed 1400, factory slope 14. -/
def simState0 : SimState :=
  { plunger_pos := some 0, port := some 1, microstep := true,
    start_speed := some 900, top_speed := some 1400,
    cutoff_speed := some 900, slope := 14 }

/-- A pump with the constructor defaults (8 ports, 1000 µl, init port 1,
automatic init force) and state `simState0`, no pending chain. -/
def pumpBase : Pump :=
  { num_ports := 8, syringe_ul := 1000, init_port := 1, init_force := -1,
    state := simState0, sim_state := simState0, sim_speed_change := false,
    cmd_chain := "", exec_time := 0, ready := true, prev_error_code := 0,
    repeat_error := false, last_cmd := "" }

/-- The bit string of the 4-bit error field. -/
def errorBits (err : ℕ) : List Bool :=
  [err.testBit 3, err.testBit 2, err.testBit 1, err.testBit 0]

/-- A status byte with the given ready flag (bit 2) and error field
(bits 4–7). -/
def mkStatus (ready : Bool) (err : ℕ) : List Bool :=
  [false, true, ready, false] ++ errorBits err

/-- A clean, ready response. -/
def respOk : Resp := ⟨mkStatus true 0, ""⟩

/-- A response reporting error code 9 (Plunger Overload), busy. -/
def respErr9 : Resp := ⟨mkStatus false 9, ""⟩

/-- A clean but busy (not ready) response. -/
def respBusy : Resp := ⟨mkStatus false 0, ""⟩

/-- The wall clock for concrete runs: the n-th `time.time()` read returns
`n` seconds. -/
def times0 : ℕ → ℚ := fun n => (n : ℚ)

/-- The pump at the start of the recovery scenarios: a chain `A300` with an
estimated 5 seconds is pending, the cached ready flag is down. -/
def pumpRec : Pump :=
  { pumpBase with cmd_chain := "A300", exec_time := 5, ready := false }

/-- Transmit command `c` (no execute byte appended) against a given response
sequence, starting from `pumpRec`, with ample fuel. -/
def runRecovery (c : String) (responses : List Resp) :
    Option (World × Except PyErr (Option String)) :=
  sendRcv times0 30 c false ⟨pumpRec, responses, [], 0⟩

/-- Responses for the one-shot recovery scenario: the command fails with
code 9, re-initialisation succeeds (ready), the resend succeeds. -/
def oracleOnce : List Resp := [respErr9, respOk, respOk]

/-- Responses for the persistent-error scenario: the command fails with
code 9, re-initialisation succeeds, the resend fails with code 9 again,
the second re-initialisation succeeds, the second resend succeeds. -/
def oracleTwice : List Resp := [respErr9, respOk, respErr9, respOk, respOk]

/-- Pump used by the speed-code claims: the simulated cutoff speed 6500
exceeds the 6000 pulses/sec of speed code 0. -/
def pumpC5 : Pump :=
  { pumpBase with sim_state :=
      { simState0 with start_speed := some 900, top_speed := some 6800,
                       cutoff_speed := some 6500 } }

/-- Pump in standard (non-microstep) mode, used for the standard-range
validation witness and the timing-model run: plunger at 100, start and
cutoff speed 50, top speed 6000, slope code 1. -/
def pumpStd : Pump :=
  { pumpBase with sim_state :=
      { simState0 with microstep := false, plunger_pos := some 100,
                       start_speed := some 50, top_speed := some 6000,
                       cutoff_speed := some 50, slope := 1 } }

/-- The embedding of `math.sqrt` adequate for the timing-model run below:
every radicand that run produces equals 2500, and `math.sqrt(2500.0)` is
exactly `50.0`. -/
def sqrtC10 : ℚ → ℚ := fun q => if q = 2500 then 50 else 0

/-- The chain of the repeat-time counterexample: 1000 ms delay, repeat mark,
2000 ms delay, then `repeatCmdSeq 2`. -/
def chainC2 : PyResult :=
  (((PyResult.ok pumpBase).bind (delayExec 1000)).bind markRepeatStart).bind
      (delayExec 2000) |>.bind (repeatCmdSeq 2)

/-- A world for the wait-loop theorems: the cached ready flag is down and
the device answers every probe busy-and-clean. -/
def worldC3 : World :=
  ⟨{ pumpBase with ready := false }, [respBusy, respBusy, respBusy, respBusy], [], 0⟩

/-! Theorems settling the claims. -/

/-- Claim C4 (code defect): `setSpeed`'s validation admits every code 0–40,
but the `SPEED_CODES` dict literal repeats key 17 (so code 17 maps to 100,
not 200) and never defines key 27; consequently the table is not defined on
all accepted codes and is not monotonically non-increasing
(code 17 ↦ 100 < code 18 ↦ 190).  The boundary entries 0 ↦ 6000 and
40 ↦ 10 do hold. -/
theorem C4_speed_code_table :
    SPEED_CODES 27 = none ∧
    SPEED_CODES 0 = some 6000 ∧ SPEED_CODES 40 = some 10 ∧
    SPEED_CODES 16 = some 400 ∧ SPEED_CODES 17 = some 100 ∧
    SPEED_CODES 18 = some 190 ∧
    ¬ (∀ i j vi vj : ℤ, 0 ≤ i → i ≤ j → j ≤ 40 →
        SPEED_CODES i = some vi → SPEED_CODES j = some vj → vj ≤ vi) := by
  refine ⟨by norm_num [SPEED_CODES, SPEED_CODES_list],
          by norm_num [SPEED_CODES, SPEED_CODES_list],
          by norm_num [SPEED_CODES, SPEED_CODES_list],
          by norm_num [SPEED_CODES, SPEED_CODES_list],
          by norm_num [SPEED_CODES, SPEED_CODES_list],
          by norm_num [SPEED_CODES, SPEED_CODES_list], ?_⟩
  intro hmono
  have h := hmono 17 18 100 190 (by norm_num) (by norm_num) (by norm_num)
    (by norm_num [SPEED_CODES, SPEED_CODES_list])
    (by norm_num [SPEED_CODES, SPEED_CODES_list])
  norm_num at h

/-- Claim C5 (code defect): speed code 27 passes `setSpeed`'s validation but
is missing from `SPEED_CODES`, so the call raises `KeyError` after flagging
the speed change and performs no clamping at all — here the stale simulated
cutoff speed 6500 survives above the intended new top speed 100.  For a code
that is present (code 0, top speed 6000), the clamp works as claimed: the
cutoff speed 6500 comes down to exactly 6000. -/
theorem C5_setSpeed_code27_keyError :
    setSpeed 27 pumpC5 = .exn .keyError { pumpC5 with sim_speed_change := true } ∧
    setSpeed 0 pumpC5 = .ok { pumpC5 with
      sim_speed_change := true
      cmd_chain := "S0"
      sim_state := { simState0 with
        start_speed := some 900
        top_speed := some 6000
        cutoff_speed := some 6000 } } := by
  constructor
  · norm_num [setSpeed, simIncToPulses, SPEED_CODES, SPEED_CODES_list]
  · norm_num [setSpeed, simIncToPulses, SPEED_CODES, SPEED_CODES_list,
              pumpC5, pumpBase, simState0]
    rfl

/-- Claim C2 counterexample: the chain `delayExec 1000` (1 s), then
`markRepeatStart`, then `delayExec 2000` (2 s), then `repeatCmdSeq 2` ends
with an accumulated estimated time of 6 s = 2 · (1 s + 2 s), not the
1 s + 2 · 2 s = 5 s the claim predicts. -/
theorem C2_counterexample :
    chainC2 = .ok { pumpBase with cmd_chain := "M1000gM2000G2", exec_time := 6 } ∧
    (6 : ℚ) ≠ 1 + 2 * 2 := by
  constructor
  · norm_num [chainC2, PyResult.bind, delayExec, markRepeatStart, repeatCmdSeq,
              pumpBase]
    rfl
  · norm_num

/-- Claim C2 (amended): appending `repeatCmdSeq n` (with `0 < n < 30000`)
multiplies the *entire* accumulated estimated time of the chain by `n` —
`markRepeatStart` records no time mark, so the time queued before the mark
is scaled too, giving `n * (T_pre + T_post)` instead of
`T_pre + n * T_post`. -/
theorem C2_repeat_scales_whole_chain (n : ℤ) (p : Pump)
    (h1 : 0 < n) (h2 : n < 30000) :
    repeatCmdSeq n p = .ok { p with
      cmd_chain := p.cmd_chain ++ ("G" ++ toString n),
      exec_time := p.exec_time * (n : ℚ) } := by
  unfold repeatCmdSeq
  rw [if_neg (by omega)]

/-- Witness for the amended claim C2: with 3 s accumulated, `repeatCmdSeq 2`
leaves 6 s. -/
theorem C2_witness :
    repeatCmdSeq 2 { pumpBase with exec_time := 3 } =
      .ok { pumpBase with exec_time := 6, cmd_chain := "G2" } := by
  rw [C2_repeat_scales_whole_chain 2 { pumpBase with exec_time := 3 }
      (by norm_num) (by norm_num)]
  norm_num [pumpBase]
  rfl

/-- Claim C8: after `resetChain` — with or without `on_execute`, whatever the
device answered to the reconciliation queries — the pending chain is empty,
the accumulated estimated time is 0, and the simulation state equals the
confirmed state field for field. -/
theorem C8_resetChain_resync (on_execute : Bool) (q : QueryVals) (p : Pump) :
    (resetChain on_execute q p).cmd_chain = "" ∧
    (resetChain on_execute q p).exec_time = 0 ∧
    (resetChain on_execute q p).sim_state = (resetChain on_execute q p).state := by
  by_cases h : (on_execute && p.sim_speed_change) = true <;>
    simp [resetChain, updateSimState, syringeResetChain, h]

/-- Witness for claim C8 at a concrete executed chain with a speed change
and concrete query answers. -/
theorem C8_witness :
    (resetChain true ⟨500, 5000, 2500, 3, 1200⟩
        { pumpC5 with sim_speed_change := true }).cmd_chain = "" ∧
    (resetChain true ⟨500, 5000, 2500, 3, 1200⟩
        { pumpC5 with sim_speed_change := true }).exec_time = 0 ∧
    (resetChain true ⟨500, 5000, 2500, 3, 1200⟩
        { pumpC5 with sim_speed_change := true }).sim_state =
      (resetChain true ⟨500, 5000, 2500, 3, 1200⟩
        { pumpC5 with sim_speed_change := true }).state :=
  C8_resetChain_resync true ⟨500, 5000, 2500, 3, 1200⟩
    { pumpC5 with sim_speed_change := true }

/-- Claim C9 (code defect): every out-of-range argument to a chainable
operation is rejected synchronously, before any transmission, with the pump
object — chain, accumulated time and simulation state — returned exactly as
it was.  For `setSpeed`, `setSlope`, `changePort`, `delayExec` and
`repeatCmdSeq` the exception is the documented `ValueError`; for
`movePlungerAbs` (both stepping modes) the source's error-message formatting
evaluates the non-existent attribute `self.port_num`, so the call raises
`AttributeError` instead of the claimed `ValidationError`. -/
theorem C9_validation_fail_fast :
    (∀ (c : ℤ) (p : Pump), c < 0 ∨ 40 < c →
        setSpeed c p = .exn .valueError p) ∧
    (∀ (s : ℤ) (p : Pump), s < 1 ∨ 20 < s →
        setSlope s p = .exn .valueError p) ∧
    (∀ (a : ℤ) (p : Pump) (sq : ℚ → ℚ), p.sim_state.microstep = true →
        a < 0 ∨ 24000 < a → movePlungerAbs sq a p = .exn .attributeError p) ∧
    (∀ (a : ℤ) (p : Pump) (sq : ℚ → ℚ), p.sim_state.microstep = false →
        a < 0 ∨ 3000 < a → movePlungerAbs sq a p = .exn .attributeError p) ∧
    (∀ (t : ℤ) (p : Pump), t ≤ 0 ∨ p.num_ports < t →
        changePort t none p = .exn .valueError p) ∧
    (∀ (d : ℤ) (p : Pump), d ≤ 0 ∨ 30000 ≤ d →
        delayExec d p = .exn .valueError p) ∧
    (∀ (n : ℤ) (p : Pump), n ≤ 0 ∨ 30000 ≤ n →
        repeatCmdSeq n p = .exn .valueError p) := by
  refine ⟨?_, ?_, ?_, ?_, ?_, ?_, ?_⟩
  · intro c p h
    unfold setSpeed
    rw [if_pos (by omega)]
  · intro s p h
    unfold setSlope
    rw [if_pos (by omega)]
  · intro a p sq hm h
    unfold movePlungerAbs
    rw [if_pos hm, if_pos (by omega)]
  · intro a p sq hm h
    unfold movePlungerAbs
    rw [if_neg (by simp [hm]), if_pos (by omega)]
  · intro t p h
    unfold changePort
    rw [if_pos (by omega)]
  · intro d p h
    unfold delayExec
    rw [if_pos (by omega)]
  · intro n p h
    unfold repeatCmdSeq
    rw [if_pos (by omega)]

/-- Witness for claim C9: each operation rejected at a concrete out-of-range
argument, with the pump returned untouched; `movePlungerAbs` raises
`AttributeError` where the claim expects a `ValidationError`. -/
theorem C9_witness :
    setSpeed 41 pumpC5 = .exn .valueError pumpC5 ∧
    setSlope 21 pumpC5 = .exn .valueError pumpC5 ∧
    movePlungerAbs sqrtC10 24001 pumpC5 = .exn .attributeError pumpC5 ∧
    movePlungerAbs sqrtC10 3001 pumpStd = .exn .attributeError pumpStd ∧
    changePort 9 none pumpC5 = .exn .valueError pumpC5 ∧
    delayExec 0 pumpC5 = .exn .valueError pumpC5 ∧
    repeatCmdSeq 30000 pumpC5 = .exn .valueError pumpC5 :=
  ⟨C9_validation_fail_fast.1 41 pumpC5 (by norm_num),
   C9_validation_fail_fast.2.1 21 pumpC5 (by norm_num),
   C9_validation_fail_fast.2.2.1 24001 pumpC5 sqrtC10 rfl (by norm_num),
   C9_validation_fail_fast.2.2.2.1 3001 pumpStd sqrtC10 rfl (by norm_num),
   C9_validation_fail_fast.2.2.2.2.1 9 pumpC5 (by norm_num [pumpC5, pumpBase]),
   C9_validation_fail_fast.2.2.2.2.2.1 0 pumpC5 (by norm_num),
   C9_validation_fail_fast.2.2.2.2.2.2 30000 pumpC5 (by norm_num)⟩

/-- Claim C10 (code defect): the four regimes of `_calcPlungerMoveTime` are
not exhaustive.  With non-negative, device-plausible inputs — a zero-step
move, start and cutoff speed 50, top speed 6000, slope code 1, standard
mode — the attainable speed equals the cutoff speed, so neither the first
regime (`theo < cutoff`) nor the second (`cutoff < theo < top`) nor the
constant-speed regime applies, and the final regime's inner halfstep test
(14399 < 12000) fails too: `move_t` is never assigned and `return move_t`
raises `UnboundLocalError`, surfacing from `movePlungerAbs` after the
position and chain mutations. -/
theorem C10_plunger_move_time_unassigned :
    calcPlungerMoveTime sqrtC10 0 50 6000 50 1 false = none ∧
    movePlungerAbs sqrtC10 100 pumpStd =
      .exn .unboundLocalError { pumpStd with cmd_chain := "A100" } := by
  constructor
  · norm_num [calcPlungerMoveTime, sqrtC10]
  · norm_num [movePlungerAbs, movePlungerAbsCore, calcPlungerMoveTime, sqrtC10,
              pumpStd, pumpBase, simState0]
    rfl

/-- Claim C6: on an 8-bit status string, `_checkStatus` takes the ready flag
from bit position 2 and the error code from bit positions 4–7 read as a
most-significant-bit-first 4-bit unsigned integer
(`8·b₄ + 4·b₅ + 2·b₆ + b₇`); it records the code as the new previous code,
marks the error as a repeat exactly when the code equals the previously
observed code, returns `(ready, 0)` normally when the code is 0 and raises
`SyringeError(code)` otherwise. -/
theorem C6_checkStatus_decoder (b0 b1 b2 b3 b4 b5 b6 b7 : Bool) (p : Pump) :
    (checkStatus [b0, b1, b2, b3, b4, b5, b6, b7] p).1.ready = b2 ∧
    (checkStatus [b0, b1, b2, b3, b4, b5, b6, b7] p).1.prev_error_code =
      8 * int_of_bit b4 + 4 * int_of_bit b5 + 2 * int_of_bit b6 + int_of_bit b7 ∧
    ((checkStatus [b0, b1, b2, b3, b4, b5, b6, b7] p).1.repeat_error = true ↔
      8 * int_of_bit b4 + 4 * int_of_bit b5 + 2 * int_of_bit b6 + int_of_bit b7 =
        p.prev_error_code) ∧
    (checkStatus [b0, b1, b2, b3, b4, b5, b6, b7] p).2 =
      (if 8 * int_of_bit b4 + 4 * int_of_bit b5 + 2 * int_of_bit b6 + int_of_bit b7 = 0
       then .ok (b2, 0)
       else .error (.syringeError
         (8 * int_of_bit b4 + 4 * int_of_bit b5 + 2 * int_of_bit b6 + int_of_bit b7))) := by
  cases b4 <;> cases b5 <;> cases b6 <;> cases b7 <;>
    simp [checkStatus, bitsToNat, int_of_bit, beq_iff_eq]

/-- Witness for claim C6, the specification's example: a status byte whose
error field reads `0111` decodes to error code 7 (Device Not Initialized)
and raises, while the ready bit (position 2) is still recorded. -/
theorem C6_witness :
    (checkStatus (mkStatus true 7) pumpBase).2 = .error (.syringeError 7) ∧
    (checkStatus (mkStatus true 7) pumpBase).1.ready = true := by
  have hsb : mkStatus true 7 =
      [false, true, true, false, false, true, true, true] := by decide
  have h := C6_checkStatus_decoder false true true false false true true true pumpBase
  rw [hsb]
  exact ⟨by simpa [int_of_bit] using h.2.2.2, h.1⟩

/-- Claim C7: with no forced direction and the simulated current port `f`
(`1 ≤ f ≤ N`), `changePort` to a valid destination `to` moves clockwise
exactly when `cw ≤ ccw` for `cw = (to − f) mod N` and `ccw = N − cw` (ties
clockwise), appends `I<to>`/`O<to>`, sets the simulated port to `to`, and
adds `0.02 · delta + 0.1` seconds for the chosen delta. -/
theorem C7_changePort_shortest_path (p : Pump) (f t : ℤ)
    (hport : p.sim_state.port = some f) (hf1 : 1 ≤ f) (hfN : f ≤ p.num_ports)
    (hto1 : 0 < t) (htoN : t ≤ p.num_ports) :
    changePort t none p = .ok { p with
      sim_state := { p.sim_state with port := some t }
      cmd_chain := p.cmd_chain ++
        ((if (t - f) % p.num_ports ≤ p.num_ports - (t - f) % p.num_ports
          then "I" else "O") ++ toString t)
      exec_time := p.exec_time + 0.02 *
        (((if (t - f) % p.num_ports ≤ p.num_ports - (t - f) % p.num_ports
           then (t - f) % p.num_ports
           else p.num_ports - (t - f) % p.num_ports) : ℤ) : ℚ) + 0.1 } := by
  have hN : 0 < p.num_ports := lt_of_lt_of_le hto1 htoN
  have hf0 : ¬ (f = 0) := by omega
  unfold changePort
  rw [if_neg (by omega), hport]
  dsimp only
  rw [if_neg hf0]
  have hcw : (if (0 : ℤ) ≤ t - f
        then ((t - f : ℤ), p.num_ports - (t - f))
        else (p.num_ports + (t - f), -(t - f))) =
      ((t - f) % p.num_ports, p.num_ports - (t - f) % p.num_ports) := by
    by_cases hd : (0 : ℤ) ≤ t - f
    · rw [if_pos hd, Int.emod_eq_of_lt hd (by omega)]
    · have h2 : (t - f) % p.num_ports = t - f + p.num_ports := by
        have e2 : (t - f + 1 * p.num_ports) % p.num_ports = (t - f) % p.num_ports :=
          Int.add_mul_emod_self
        have e3 : (t - f + 1 * p.num_ports) % p.num_ports = t - f + p.num_ports := by
          rw [one_mul]
          exact Int.emod_eq_of_lt (by omega) (by omega)
        rw [← e2, e3]
      rw [if_neg hd, h2, Prod.mk.injEq]
      constructor <;> ring
  rw [hcw]
  simp only [decide_eq_true_eq]
  split_ifs <;> rfl

/-- Witness for claim C7, the specification's example: 8 ports, simulated
port 1, destination 6 — clockwise delta 5, counter-clockwise delta 3, so the
counter-clockwise command `O6` is queued at a time cost of
`0.02 · 3 + 0.1 = 0.16` seconds. -/
theorem C7_witness :
    changePort 6 none pumpBase = .ok { pumpBase with
      sim_state := { simState0 with port := some 6 }
      cmd_chain := "O6"
      exec_time := 0.16 } := by
  have h := C7_changePort_shortest_path pumpBase 1 6 rfl (by norm_num)
    (by norm_num [pumpBase]) (by norm_num) (by norm_num [pumpBase])
  rw [h]
  norm_num [pumpBase, simState0]
  rfl

/-- `_checkStatus` can only raise `SyringeError` or fault on a short status
byte; it never produces the timeout exception. -/
theorem checkStatus_no_timeout (sb : List Bool) (p : Pump) (e : PyErr)
    (h : (checkStatus sb p).2 = .error e) : e ≠ .syringeTimeout := by
  intro hte
  subst hte
  unfold checkStatus at h
  dsimp only at h
  split_ifs at h <;> simp_all

/-- `_sendRcv` never produces the timeout exception. -/
theorem sendRcvLow_no_timeout (cmd : String) (w : World) :
    ∀ w1, sendRcvLow cmd w ≠ some (w1, .error .syringeTimeout) := by
  intro w1 h
  unfold sendRcvLow at h
  split at h
  · exact Option.noConfusion h
  · dsimp only at h
    split at h
    · rename_i e heq
      injection h with hpair
      injection hpair with h1 h2
      injection h2 with h3
      exact checkStatus_no_timeout _ _ e heq h3
    · simp at h

/-- `_checkReady` never produces the timeout exception. -/
theorem checkReady_no_timeout (w : World) :
    ∀ w1, checkReady w ≠ some (w1, .error .syringeTimeout) := by
  intro w1 h
  unfold checkReady at h
  split_ifs at h
  · simp at h
  · cases hs : sendRcvLow "Q" w with
    | none => rw [hs] at h; exact Option.noConfusion h
    | some pr =>
      obtain ⟨w2, res⟩ := pr
      rw [hs] at h
      cases res with
      | ok d =>
        obtain ⟨ds, db⟩ := d
        simp at h
      | error e =>
        cases e with
        | syringeError c =>
          dsimp only at h
          split_ifs at h <;> simp at h
        | syringeTimeout => exact sendRcvLow_no_timeout "Q" w w2 hs
        | valueError => simp at h
        | attributeError => simp at h
        | keyError => simp at h
        | typeError => simp at h
        | unboundLocalError => simp at h
        | indexError => simp at h

/-- The wait loop of `_waitReady` can only end in readiness, a propagated
non-timeout error, or exhaustion — never in `SyringeTimeout` — whenever the
timeout is positive and the wall clock is non-negative, because the loop
guard `(start - time.time()) < (start + timeout)` is then always true. -/
theorem waitReadyLoop_no_timeout (times : ℕ → ℚ) (fuel : ℕ)
    (polling_interval start timeout : ℚ)
    (ht : 0 < timeout) (htimes : ∀ n, 0 ≤ times n) :
    ∀ w w1, waitReadyLoop times fuel polling_interval start timeout w ≠
      some (w1, .error .syringeTimeout) := by
  induction fuel with
  | zero =>
    intro w w1 h
    exact Option.noConfusion h
  | succ fuel ih =>
    intro w w1 h
    unfold waitReadyLoop at h
    dsimp only at h
    rw [if_pos (by have := htimes w.tick; linarith)] at h
    split at h
    · exact Option.noConfusion h
    · rename_i w2 e heq
      injection h with hpair
      injection hpair with h1 h2
      injection h2 with h3
      rw [h3] at heq
      exact checkReady_no_timeout _ _ heq
    · simp at h
    · exact ih _ _ h

/-- Claim C3 (code defect): for every positive timeout `t` and every polling
interval, if the wall clock never reads negative then `_waitReady` can never
raise `SyringeTimeout` — the loop guard
`while (start - time.time()) < (start + timeout)` compares a non-positive
quantity with a positive one, so it is always true, the `raise` after the
loop is unreachable, and a never-ready device is polled forever instead of
failing after `t` seconds. -/
theorem C3_timeout_unreachable (times : ℕ → ℚ) (fuel : ℕ)
    (polling_interval timeout : ℚ) (delay : Option ℚ) (w : World)
    (ht : 0 < timeout) (htimes : ∀ n, 0 ≤ times n) :
    ∀ w1, waitReadyPriv times fuel polling_interval timeout delay w ≠
      some (w1, .error .syringeTimeout) := by
  intro w1 h
  unfold waitReadyPriv at h
  exact waitReadyLoop_no_timeout times fuel polling_interval (times w.tick)
    timeout ht htimes _ w1 h

/-- Witness for claim C3: a concrete `_waitReady` run with `timeout=10`,
`polling_interval=0.3`, a clock reading `n` seconds at the n-th call, and a
device that always answers busy, does not raise the timeout. -/
theorem C3_witness :
    waitReadyPriv times0 4 0.3 10 none worldC3 ≠
      some (worldC3, .error .syringeTimeout) :=
  C3_timeout_unreachable times0 4 0.3 10 none worldC3 (by norm_num)
    (fun n => Nat.cast_nonneg n) worldC3

/-- Claim C1 (amended): a recoverable error on a transmitted command triggers
a recovery cycle — the pending chain (`A300`, 5 s) is discarded, never
retransmitted, the device is re-initialised (`Z0R`), and only the single
last-transmitted raw command is resent; but when the resent command raises a
recoverable code again, the resend's own error handler runs a *second*
re-initialise-and-resend cycle (recovery recurses; it is not bounded to one
cycle).  With a clean resend the transmissions are exactly
`[c, Z0R, c]` (one cycle); with one more code 9 on the resend they are
exactly `[c, Z0R, c, Z0R, c]` (two cycles).  In both runs the chain ends
discarded. -/
theorem C1_recovery_cycles (c : String) :
    (runRecovery c oracleOnce).map
        (fun x => (x.1.trace, x.1.pump.cmd_chain, x.1.pump.exec_time)) =
      some ([c, "Z0R", c], "", 0) ∧
    (runRecovery c oracleTwice).map
        (fun x => (x.1.trace, x.1.pump.cmd_chain, x.1.pump.exec_time)) =
      some ([c, "Z0R", c, "Z0R", c], "", 0) := by
  constructor <;>
  · norm_num [runRecovery, oracleOnce, oracleTwice, sendRcv, syringeErrorHandler,
      resendAfterReinit, init, waitReadyPub, waitReadyPriv, waitReadyLoop,
      checkReady, sendRcvLow, checkStatus, bitsToNat, int_of_bit, resetChain,
      updateSimState, syringeResetChain, noQueries, calcInitForce,
      pumpRec, pumpBase, simState0, times0,
      show respOk = ⟨[false, true, true, false, false, false, false, false], ""⟩
        from by decide,
      show respErr9 = ⟨[false, true, false, false, true, false, false, true], ""⟩
        from by decide,
      show ("Z" ++ toString (0 : ℤ)) ++ "R" = "Z0R" from rfl]

/-- Claim C1 counterexample: with the persistent-error responses (code 9 on
the command, code 9 again on the resend), the run transmits the
re-initialisation command `Z0R` twice — recovery does run a second
reinitialize-and-resend cycle, contradicting the claim as stated. -/
theorem C1_counterexample :
    (runRecovery "A300R" oracleTwice).map (fun x => x.1.trace) =
      some ["A300R", "Z0R", "A300R", "Z0R", "A300R"] ∧
    (["A300R", "Z0R", "A300R", "Z0R", "A300R"].count "Z0R" = 2) := by
  constructor
  · norm_num [runRecovery, oracleTwice, sendRcv, syringeErrorHandler,
      resendAfterReinit, init, waitReadyPub, waitReadyPriv, waitReadyLoop,
      checkReady, sendRcvLow, checkStatus, bitsToNat, int_of_bit, resetChain,
      updateSimState, syringeResetChain, noQueries, calcInitForce,
      pumpRec, pumpBase, simState0, times0,
      show respOk = ⟨[false, true, true, false, false, false, false, false], ""⟩
        from by decide,
      show respErr9 = ⟨[false, true, false, false, true, false, false, true], ""⟩
        from by decide,
      show ("Z" ++ toString (0 : ℤ)) ++ "R" = "Z0R" from rfl]
  · decide

end Tecancavro
